import Mathlib

/-
Formal model of the libsoxr-rs wrapper layer: `src/soxr.rs` together with the
supporting value objects of `src/spec.rs`, `src/datatype.rs` and
`src/error_handling.rs`.  The native resampling engine (libsoxr) is an external
collaborator and is modelled abstractly by its observable behaviour; the
wrapper logic itself is translated line by line.  Raw pointers are modelled as
`Option` values (with `none` for the null pointer), C strings as `String`, and
buffers as Lean lists.
-/

namespace LibSoxr

/-- Sample datatypes of `src/datatype.rs`.  The `I` variants are the
interleaved formats, the `S` variants the split (planar) formats. -/
inductive Datatype where
  | Float32I
  | Float64I
  | Int32I
  | Int16I
  | Float32S
  | Float64S
  | Int32S
  | Int16S
deriving DecidableEq, Repr

/-- Modelled from the spec: the method `Datatype::is_interleaved` is called at
soxr.rs lines 281 and 298 but its definition is not among the provided source
files.  The datatype documentation in datatype.rs says to use the I data types
for interleaved channels and the S data types for split channels, so the
interleaved datatypes are exactly the `I` variants. -/
def Datatype.is_interleaved : Datatype → Bool
  | Datatype.Float32I => true
  | Datatype.Float64I => true
  | Datatype.Int32I => true
  | Datatype.Int16I => true
  | _ => false

/-- The host-visible part of `IOSpec` (src/spec.rs): the input and output
datatypes.  The embedded native parameter block is derived from these two
fields and is not consulted by the wrapper logic modelled here. -/
structure IOSpec where
  input_type : Datatype
  output_type : Datatype
deriving DecidableEq, Repr

/-- The error taxonomy of `src/error_handling.rs`. -/
inductive ErrorType where
  | InvalidString
  | CreateError (msg : String)
  | ChangeError (msg : String)
  | ProcessError (msg : String)
deriving DecidableEq, Repr

/-- An error together with the reporting function name
(struct `Error` of src/error_handling.rs). -/
structure Error where
  function : Option String
  error_type : ErrorType
deriving DecidableEq, Repr

/-! ### The creation path (`Soxr::create`, soxr.rs lines 69-101) -/

/-- The configuration handed to `Soxr::create`.  The two rates are `f64`
values in the source; they are only passed through to the native engine, never
computed on, so they are carried here as integers. -/
structure CreateConfig where
  input_rate : Int
  output_rate : Int
  num_channels : Nat
  io_spec : Option IOSpec
  has_quality_spec : Bool
  has_runtime_spec : Bool

/-- Abstract behaviour of the native `soxr_create` call: which configurations
it accepts, and the diagnostic string it reports for rejected ones. -/
structure NativeCreate where
  accepts : CreateConfig → Bool
  diagnostic : CreateConfig → String

/-- The native `soxr_create` call.  Its fourth argument is a
`*mut *const c_char` error out-pointer, modelled as `Option (Option String)`
with `none` for the null outer pointer.  The engine writes its diagnostic
through the out-pointer only when that pointer is non-null; the returned pair
is the (possibly null) engine handle and the out-pointer afterwards (whose
nullness the native call cannot change). -/
def soxr_create (nv : NativeCreate) (cfg : CreateConfig)
    (errOut : Option (Option String)) : Option Unit × Option (Option String) :=
  if nv.accepts cfg then (some (), errOut)
  else (none, errOut.map fun _ => some (nv.diagnostic cfg))

/-- The `Soxr` handle struct (soxr.rs lines 46-52).  The native engine
reference is `Option Unit` (`none` models a null `soxr_t`), the `CString`
error scratch is a `String`, and `last_trampoline_data` holds the identifier
of the heap block the raw pointer points to, if any. -/
structure Soxr where
  soxr : Option Unit
  channels : Nat
  io_spec : Option IOSpec
  error : String
  last_trampoline_data : Option Nat
deriving DecidableEq, Repr

/-- `Soxr::create` (soxr.rs lines 69-101).  The local `error` variable is a
null `*mut *const c_char` (`none` here); it is passed to `soxr_create` and the
code then tests `error.is_null()` on that same local.  The diagnostic branch
dereferences `*error`, modelled by unwrapping the two option layers. -/
def Soxr.create (nv : NativeCreate) (cfg : CreateConfig) : Except Error Soxr :=
  let error : Option (Option String) := none
  let r := soxr_create nv cfg error
  if (r.2).isNone then
    Except.ok
      { soxr := r.1
        channels := cfg.num_channels
        io_spec := cfg.io_spec
        error := ""
        last_trampoline_data := none }
  else
    Except.error
      { function := some "Soxr::new"
        error_type := ErrorType.CreateError (((r.2).getD none).getD "") }

/-- A native-create behaviour that rejects every configuration, with the
diagnostic libsoxr reports for invalid rates. -/
def rejectAllNative : NativeCreate :=
  { accepts := fun _ => false
    diagnostic := fun _ => "invalid io rate(s)" }

/-- A configuration the native engine rejects: a negative input rate. -/
def badCfg : CreateConfig :=
  { input_rate := -1
    output_rate := 1
    num_channels := 1
    io_spec := none
    has_quality_spec := false
    has_runtime_spec := false }

/-! ### The synchronous conversion path (`Soxr::process` and the buffer
layout adapters, soxr.rs lines 226-307) -/

/-- The part of the `Soxr` handle that `process` and the layout adapters
consult: the cached channel count and the copied I/O spec. -/
structure SoxrConfig where
  channels : Nat
  io_spec : Option IOSpec
deriving DecidableEq, Repr

/-- A buffer argument as it reaches the native call: the null pointer, a
single direct pointer to the flat buffer, or a look-aside array of per-channel
segment pointers.  A pointer into the middle of a buffer is modelled as the
list suffix starting at the pointed-to element. -/
inductive BufPtr (X : Type) where
  | null
  | direct (buf : List X)
  | split (segs : List (List X))
deriving DecidableEq, Repr

/-- `Soxr::get_buf_in_ptr` (soxr.rs lines 275-290): without an `IOSpec` the
buffer is assumed interleaved and passed directly; with one, the input
datatype decides; for a split input the buffer is cut into `channels`
segments of `len / channels` samples, and the pushed pointers are the segment
start addresses `buf_in[channel * samples_in_buf..]`. -/
def Soxr.get_buf_in_ptr {I : Type} (s : SoxrConfig) (buf_in : List I) : BufPtr I :=
  match s.io_spec with
  | none => BufPtr.direct buf_in
  | some io_spec =>
    if io_spec.input_type.is_interleaved then BufPtr.direct buf_in
    else
      let samples_in_buf := buf_in.length / s.channels
      BufPtr.split ((List.range s.channels).map fun channel =>
        buf_in.drop (channel * samples_in_buf))

/-- `Soxr::get_buf_out_ptr` (soxr.rs lines 292-307).  Faithful to the source:
the branch condition consults `io_spec.input_type()` — the INPUT datatype —
also for the output buffer. -/
def Soxr.get_buf_out_ptr {O : Type} (s : SoxrConfig) (buf_out : List O) : BufPtr O :=
  match s.io_spec with
  | none => BufPtr.direct buf_out
  | some io_spec =>
    if io_spec.input_type.is_interleaved then BufPtr.direct buf_out
    else
      let samples_in_buf := buf_out.length / s.channels
      BufPtr.split ((List.range s.channels).map fun channel =>
        buf_out.drop (channel * samples_in_buf))

/-- The output-buffer layout computation as the spec describes it: the
split decision for the output buffer is taken from the OUTPUT datatype.
Stated only to compare with `Soxr.get_buf_out_ptr`, which follows the
source. -/
def get_buf_out_ptr_spec {O : Type} (s : SoxrConfig) (buf_out : List O) : BufPtr O :=
  match s.io_spec with
  | none => BufPtr.direct buf_out
  | some io_spec =>
    if io_spec.output_type.is_interleaved then BufPtr.direct buf_out
    else
      let samples_in_buf := buf_out.length / s.channels
      BufPtr.split ((List.range s.channels).map fun channel =>
        buf_out.drop (channel * samples_in_buf))

/-- The argument block `Soxr::process` hands to the native `soxr_process`
call. -/
structure ProcessArgs (I O : Type) where
  in_ptr : BufPtr I
  ilen : Nat
  out_ptr : BufPtr O
  olen : Nat
deriving DecidableEq, Repr

/-- Abstract behaviour of the native `soxr_process` call: from the argument
block, the error pointer (`none` for null, i.e. success) and the
consumed/produced per-channel counts written through the two out-params. -/
structure NativeProcess (I O : Type) where
  run : ProcessArgs I O → Option String × Nat × Nat

/-- The argument block computed inside `Soxr::process` (soxr.rs lines
233-264) before the native call: per-channel lengths are the flat buffer
lengths floor-divided by the channel count, and the pointers come from the two
layout adapters; with `buf_in = None` the input pointer is null and the input
length 0.  The code performs no validation of any kind before this. -/
def Soxr.processArgs {I O : Type} (s : SoxrConfig) (buf_in : Option (List I))
    (buf_out : List O) : ProcessArgs I O :=
  match buf_in with
  | some buf_in =>
    { in_ptr := Soxr.get_buf_in_ptr s buf_in
      ilen := buf_in.length / s.channels
      out_ptr := Soxr.get_buf_out_ptr s buf_out
      olen := buf_out.length / s.channels }
  | none =>
    { in_ptr := BufPtr.null
      ilen := 0
      out_ptr := Soxr.get_buf_out_ptr s buf_out
      olen := buf_out.length / s.channels }

/-- `Soxr::process` (soxr.rs lines 226-273): invoke the native call on the
computed argument block; a null error pointer yields `Ok((idone, odone))`,
otherwise the diagnostic is wrapped in a `ProcessError`. -/
def Soxr.process {I O : Type} (nv : NativeProcess I O) (s : SoxrConfig)
    (buf_in : Option (List I)) (buf_out : List O) : Except Error (Nat × Nat) :=
  let r := nv.run (Soxr.processArgs s buf_in buf_out)
  match r with
  | (none, idone, odone) => Except.ok (idone, odone)
  | (some msg, _, _) =>
    Except.error { function := some "Soxr::process"
                   error_type := ErrorType.ProcessError msg }

/-- A native-process behaviour that always succeeds consuming and producing
nothing. -/
def natOkNat : NativeProcess Nat Nat :=
  { run := fun _ => (none, 0, 0) }

/-- A native-process behaviour that always fails with a fixed diagnostic. -/
def natErrNat : NativeProcess Nat Nat :=
  { run := fun _ => (some "boom", 0, 0) }

/-- A two-channel handle configuration with no `IOSpec` (interleaved by
assumption). -/
def cfg2 : SoxrConfig :=
  { channels := 2, io_spec := none }

/-- A two-channel handle configuration whose input format is interleaved and
whose output format is split. -/
def mixedCfg : SoxrConfig :=
  { channels := 2
    io_spec := some { input_type := Datatype.Float32I
                      output_type := Datatype.Float64S } }

/-! ### The trampoline lifetime machine (`Soxr::set_input`,
`Soxr::drop_last_trampoline` and `impl Drop for Soxr`, soxr.rs lines 387-423,
447-458 and 511-519).  Heap blocks holding `TrampolineData` are identified by
natural numbers; the observable actions of each operation are recorded as an
event trace in program order. -/

/-- One observable action of the trampoline lifetime machine: freeing a heap
block (`Box::from_raw` + drop), allocating one (`Box::into_raw`), the
`soxr_set_input_fn` registration call carrying its opaque state pointer
(`none` is the null pointer), and the `soxr_delete` call. -/
inductive Event where
  | freeBlock (id : Nat)
  | allocBlock (id : Nat)
  | registerCall (statePtr : Option Nat)
  | deleteEngine
deriving DecidableEq, Repr

/-- Is this event a heap-block allocation? -/
def Event.isAlloc : Event → Bool
  | Event.allocBlock _ => true
  | _ => false

/-- The state of one handle as far as trampoline lifetime is concerned:
the `last_trampoline_data` field, the set of live (allocated, not yet freed)
heap blocks, a fresh-identifier counter for the allocator, and the opaque
state pointer currently registered with the native engine (`none` when
`soxr_set_input_fn` has never been called). -/
structure TrampState where
  last_trampoline_data : Option Nat
  live : List Nat
  next : Nat
  registered : Option (Option Nat)
deriving DecidableEq, Repr

/-- `Soxr::drop_last_trampoline` (soxr.rs lines 447-458): if a block is
recorded, reconstruct the box from the raw pointer, drop it (freeing the
block), and clear the field. -/
def Soxr.drop_last_trampoline (s : TrampState) : TrampState × List Event :=
  match s.last_trampoline_data with
  | some id =>
    ({ s with last_trampoline_data := none, live := s.live.erase id },
     [Event.freeBlock id])
  | none => (s, [])

/-- `Soxr::set_input` (soxr.rs lines 387-423), at the level of lifetime
events.  In source order: first `drop_last_trampoline`; then, when a state
reference was supplied (`b = true`), a fresh `TrampolineData` block is boxed
and its raw pointer stored in `last_trampoline_data`; finally
`soxr_set_input_fn` is called with `last_trampoline_data.unwrap_or(null)`.
The parameter `e` is the error pointer the native registration call returns;
it decides the `Result` but no state transition depends on it. -/
def Soxr.set_input (s : TrampState) (b : Bool) (e : Option String) :
    TrampState × List Event × Except Error Unit :=
  let r1 := Soxr.drop_last_trampoline s
  let s1 := r1.1
  let s2 :=
    if b then
      { s1 with last_trampoline_data := some s1.next
                live := s1.next :: s1.live
                next := s1.next + 1 }
    else
      { s1 with last_trampoline_data := none }
  let allocEvents := if b then [Event.allocBlock s1.next] else []
  let s3 := { s2 with registered := some s2.last_trampoline_data }
  let trace := r1.2 ++ allocEvents ++ [Event.registerCall s2.last_trampoline_data]
  match e with
  | none => (s3, trace, Except.ok ())
  | some msg =>
    (s3, trace,
     Except.error { function := some "Soxr::set_input"
                    error_type := ErrorType.ProcessError msg })

/-- `impl Drop for Soxr` (soxr.rs lines 511-519), in source order:
`drop_last_trampoline` first, then `soxr_delete`. -/
def Soxr.dropHandle (s : TrampState) : TrampState × List Event :=
  let r1 := Soxr.drop_last_trampoline s
  (r1.1, r1.2 ++ [Event.deleteEngine])

/-- Event `a` occurs strictly before event `b` in the trace `tr`. -/
def precedes (tr : List Event) (a b : Event) : Prop :=
  ∃ i : Fin tr.length, ∃ j : Fin tr.length,
    i.val < j.val ∧ tr.get i = a ∧ tr.get j = b

instance (tr : List Event) (a b : Event) : Decidable (precedes tr a b) := by
  unfold precedes; infer_instance

/-- Effect of one event on the set of live heap blocks. -/
def applyEvent (live : List Nat) : Event → List Nat
  | Event.freeBlock id => live.erase id
  | Event.allocBlock id => id :: live
  | _ => live

/-- The live heap blocks after running an event trace. -/
def liveAfter (live : List Nat) (tr : List Event) : List Nat :=
  tr.foldl applyEvent live

/-- Well-formedness of a trampoline lifetime state: the live blocks are
exactly the one recorded in `last_trampoline_data` (if any), and every live
block identifier is below the allocator counter. -/
def TrampInv (s : TrampState) : Prop :=
  s.live = s.last_trampoline_data.toList ∧ ∀ id ∈ s.live, id < s.next

instance (s : TrampState) : Decidable (TrampInv s) := by
  unfold TrampInv; infer_instance

/-- The state of a handle directly after `Soxr::create`: no trampoline
registered, no live block. -/
def initTramp : TrampState :=
  { last_trampoline_data := none, live := [], next := 0, registered := none }

/-- A handle state with one registered trampoline block (identifier 0),
as produced by a first successful `set_input` call. -/
def regState : TrampState :=
  { last_trampoline_data := some 0, live := [0], next := 1,
    registered := some (some 0) }

/-! ### The shim (`input_trampoline`, soxr.rs lines 464-496) and the
`TrampolineData` block (lines 502-509). -/

/-- The `TrampolineData` block.  The supplier is modelled in state-passing
style: from the user state, the scratch buffer contents and the requested
per-channel count it returns the mutated state, the mutated buffer and either
the produced count or an error. -/
structure TrampolineData (S T E : Type) where
  check : String
  input_state : S
  input_fn : S → List T → Nat → S × List T × Except E Nat
  last_error : Option E
  input_buffer_size : Nat
  input_buffer : List T

/-- The panic raised by `assert_eq!(trampoline_data.check, "trampoline")`. -/
def trampolineCheckFailMsg : String :=
  "assertion failed: trampoline check mismatch"

/-- Outcome of one shim invocation: a normal return carrying the data pointer
published through `*data` (`none` is the null pointer, `some buf` the address
of the scratch buffer with contents `buf`) together with the returned count; a
panic from the tag assertion; or the undefined behaviour of dereferencing a
null opaque state pointer. -/
inductive ShimResult (T : Type) where
  | ret (published : Option (List T)) (count : Nat)
  | panic (msg : String)
  | nullDeref

/-- `input_trampoline` (soxr.rs lines 464-496).  The opaque state pointer is
reinterpreted as a `TrampolineData` block (`none` models the null pointer,
whose dereference is undefined behaviour).  The tag is asserted, the supplier
is invoked on the scratch buffer, and its result is republished: on `Ok(n)`
the scratch buffer address and `n`, on `Err(e)` the error is recorded in
`last_error`, a null pointer is published and `0` returned. -/
def input_trampoline {S T E : Type} (p : Option (TrampolineData S T E))
    (q : Nat) : ShimResult T × Option (TrampolineData S T E) :=
  match p with
  | none => (ShimResult.nullDeref, none)
  | some td =>
    if td.check = "trampoline" then
      match td.input_fn td.input_state td.input_buffer q with
      | (s1, b1, Except.ok n) =>
        (ShimResult.ret (some b1) n,
         some { td with input_state := s1, input_buffer := b1 })
      | (s1, b1, Except.error e) =>
        (ShimResult.ret none 0,
         some { td with input_state := s1, input_buffer := b1,
                        last_error := some e })
    else (ShimResult.panic trampolineCheckFailMsg, some td)

/-- A correctly tagged trampoline block whose supplier increments its state,
appends the requested count to the buffer and succeeds. -/
def tdOk : TrampolineData Nat Nat Nat :=
  { check := "trampoline"
    input_state := 0
    input_fn := fun s b n => (s + 1, b ++ [n], Except.ok n)
    last_error := none
    input_buffer_size := 4
    input_buffer := [] }

/-- A correctly tagged trampoline block whose supplier always fails with
error code 7. -/
def tdErr : TrampolineData Nat Nat Nat :=
  { check := "trampoline"
    input_state := 0
    input_fn := fun s b _ => (s, b, Except.error 7)
    last_error := none
    input_buffer_size := 4
    input_buffer := [] }

/-- A block whose tag does not match the expected marker. -/
def tdBad : TrampolineData Nat Nat Nat :=
  { check := "foo"
    input_state := 0
    input_fn := fun s b n => (s, b, Except.ok n)
    last_error := none
    input_buffer_size := 4
    input_buffer := [] }

/-! ### The pull-mode driver (`Soxr::output`, soxr.rs lines 439-445). -/

/-- Outcome of `Soxr::output`: either the assertion panic, or the native
`soxr_output` call made with the buffer pointer and the requested per-channel
count. -/
inductive OutputCall where
  | panic (msg : String)
  | call (samples : Nat)
deriving DecidableEq, Repr

/-- The panic message of the buffer-size assertion in `Soxr::output`. -/
def outputAssertMsg : String :=
  "the data buffer does not contain enough space to hold requested samples"

/-- `Soxr::output` (soxr.rs lines 439-445): assert
`data.len() >= samples * channels`, then perform the native pull. -/
def Soxr.output (channels : Nat) (dataLen : Nat) (samples : Nat) : OutputCall :=
  if dataLen ≥ samples * channels then OutputCall.call samples
  else OutputCall.panic outputAssertMsg

/-! ## Theorems -/

/-- C1: evaluating `Soxr::create` at a configuration the native engine
rejects (a negative input rate): the wrapper nevertheless returns `Ok`,
carrying a null engine handle, because the error out-pointer it hands to
`soxr_create` is null and the subsequent `error.is_null()` test inspects that
same always-null local variable.  This contradicts the claim that a rejected
configuration yields an `Err` with a `CreationError`. -/
theorem create_ok_despite_native_rejection :
    rejectAllNative.accepts badCfg = false ∧
    Soxr.create rejectAllNative badCfg =
      Except.ok { soxr := none, channels := 1, io_spec := none, error := "",
                  last_trampoline_data := none } :=
  ⟨rfl, rfl⟩

/-- C2 counterexample: on a handle with a registered trampoline block, the
destruction sequence does NOT delete the native engine before freeing the
block — the claimed order is false on the code. -/
theorem drop_deletes_engine_after_free_cex :
    ¬ precedes (Soxr.dropHandle regState).2 Event.deleteEngine
        (Event.freeBlock 0) := by
  decide

/-- C2 (amended): on destruction of a handle with a registered trampoline
block, the block is freed first and the native engine is deleted immediately
afterwards; the destruction trace is exactly the free followed by the
deletion, with no native call in between. -/
theorem drop_frees_trampoline_then_deletes_engine (s : TrampState) (i : Nat)
    (h : s.last_trampoline_data = some i) :
    (Soxr.dropHandle s).2 = [Event.freeBlock i, Event.deleteEngine] ∧
    precedes (Soxr.dropHandle s).2 (Event.freeBlock i) Event.deleteEngine := by
  have ht : (Soxr.dropHandle s).2 = [Event.freeBlock i, Event.deleteEngine] := by
    simp [Soxr.dropHandle, Soxr.drop_last_trampoline, h]
  refine ⟨ht, ?_⟩
  rw [ht]
  exact ⟨⟨0, by simp⟩, ⟨1, by simp⟩, Nat.zero_lt_one, rfl, rfl⟩

/-- C2 witness: the amended destruction order evaluated on a concrete handle
state with block 0 registered. -/
theorem drop_frees_trampoline_then_deletes_engine_witness :
    (Soxr.dropHandle regState).2 = [Event.freeBlock 0, Event.deleteEngine] ∧
    precedes (Soxr.dropHandle regState).2 (Event.freeBlock 0)
      Event.deleteEngine :=
  drop_frees_trampoline_then_deletes_engine regState 0 rfl

/-- C3 counterexample: on a handle that already has block 0 registered,
`set_input` does NOT free the previous block after the registration call —
the free does not come after the registration, so the claimed order is false
on the code. -/
theorem set_input_free_before_registration_cex :
    ¬ precedes (Soxr.set_input regState true none).2.1
        (Event.registerCall (some 1)) (Event.freeBlock 0) := by
  decide

/-- C3 (amended): re-registration frees the previous block FIRST — before the
new block is allocated and before the registration call into the native
engine is made; the event trace is exactly free, then allocation, then
registration. -/
theorem set_input_frees_old_block_first (s : TrampState) (i : Nat)
    (e : Option String) (h : s.last_trampoline_data = some i) :
    (Soxr.set_input s true e).2.1 =
      [Event.freeBlock i, Event.allocBlock s.next,
       Event.registerCall (some s.next)] ∧
    precedes (Soxr.set_input s true e).2.1
      (Event.freeBlock i) (Event.registerCall (some s.next)) := by
  have ht : (Soxr.set_input s true e).2.1 =
      [Event.freeBlock i, Event.allocBlock s.next,
       Event.registerCall (some s.next)] := by
    cases e <;> simp [Soxr.set_input, Soxr.drop_last_trampoline, h]
  refine ⟨ht, ?_⟩
  rw [ht]
  exact ⟨⟨0, by simp⟩, ⟨2, by simp⟩, Nat.zero_lt_two, rfl, rfl⟩

/-- C3 witness: the amended re-registration order evaluated on a concrete
handle state with block 0 registered. -/
theorem set_input_frees_old_block_first_witness :
    (Soxr.set_input regState true none).2.1 =
      [Event.freeBlock 0, Event.allocBlock 1, Event.registerCall (some 1)] ∧
    precedes (Soxr.set_input regState true none).2.1
      (Event.freeBlock 0) (Event.registerCall (some 1)) :=
  set_input_frees_old_block_first regState 0 none rfl

/-- C4: for every invocation of the shim on a correctly tagged block, if the
supplier returns `Ok(n)` the shim publishes the scratch buffer address as the
data pointer and returns `n` (including `n = 0`), and if the supplier returns
`Err(e)` the shim records `e` in the last-error slot of the block, publishes
a null data pointer and returns `0`. -/
theorem input_trampoline_republishes_supplier_result {S T E : Type}
    (td : TrampolineData S T E) (q : Nat) (h : td.check = "trampoline") :
    (∀ (n : Nat) (s1 : S) (b1 : List T),
      td.input_fn td.input_state td.input_buffer q = (s1, b1, Except.ok n) →
      input_trampoline (some td) q =
        (ShimResult.ret (some b1) n,
         some { td with input_state := s1, input_buffer := b1 })) ∧
    (∀ (e : E) (s1 : S) (b1 : List T),
      td.input_fn td.input_state td.input_buffer q = (s1, b1, Except.error e) →
      input_trampoline (some td) q =
        (ShimResult.ret none 0,
         some { td with input_state := s1, input_buffer := b1,
                        last_error := some e })) := by
  constructor
  · intro n s1 b1 hfn
    simp [input_trampoline, h, hfn]
  · intro e s1 b1 hfn
    simp [input_trampoline, h, hfn]

/-- C4 witness: both shim outcomes evaluated on concrete blocks — a
succeeding supplier that produced 2 samples, and a failing supplier whose
error 7 lands in the last-error slot with a null pointer published. -/
theorem input_trampoline_republishes_supplier_result_witness :
    input_trampoline (some tdOk) 2 =
      (ShimResult.ret (some [2]) 2,
       some { tdOk with input_state := 1, input_buffer := [2] }) ∧
    input_trampoline (some tdErr) 2 =
      (ShimResult.ret none 0, some { tdErr with last_error := some 7 }) :=
  ⟨(input_trampoline_republishes_supplier_result tdOk 2 rfl).1 2 1 [2] rfl,
   (input_trampoline_republishes_supplier_result tdErr 2 rfl).2 7 0 [] rfl⟩

/-- C5 counterexample: a two-channel handle given an interleaved input buffer
of length 3 (not a multiple of 2): `process` does not reject the call — it
returns `Ok` (under a succeeding native behaviour), and the argument block
that reaches the native engine carries the floored per-channel count 1. -/
theorem process_accepts_unaligned_buffer_cex :
    Soxr.process natOkNat cfg2 (some [1, 2, 3]) ([0, 0, 0, 0] : List Nat) =
      Except.ok (0, 0) ∧
    (Soxr.processArgs cfg2 (some [1, 2, 3]) ([0, 0, 0, 0] : List Nat)).ilen = 1 :=
  ⟨rfl, rfl⟩

/-- C5 (amended): `process` performs no buffer-length validation at all.
Every error it returns is a `ProcessError` wrapping the diagnostic the native
call produced on the computed argument block (so nothing is rejected before
the native engine is invoked), and the per-channel lengths passed to the
engine are the flat buffer lengths floor-divided by the channel count. -/
theorem process_no_size_validation {I O : Type} (nv : NativeProcess I O)
    (s : SoxrConfig) (b : Option (List I)) (o : List O) :
    (∀ e, Soxr.process nv s b o = Except.error e →
      ∃ m, e = { function := some "Soxr::process",
                 error_type := ErrorType.ProcessError m } ∧
        (nv.run (Soxr.processArgs s b o)).1 = some m) ∧
    (∀ l, b = some l → (Soxr.processArgs s b o).ilen = l.length / s.channels) ∧
    (Soxr.processArgs s b o).olen = o.length / s.channels := by
  refine ⟨?_, ?_, ?_⟩
  · intro e he
    unfold Soxr.process at he
    rcases hr : nv.run (Soxr.processArgs s b o) with ⟨m, idone, odone⟩
    rw [hr] at he
    cases m with
    | none => simp at he
    | some msg =>
      refine ⟨msg, ?_, by simp [hr]⟩
      simpa using he.symm
  · intro l hl
    subst hl
    rfl
  · cases b <;> rfl

/-- C5 witness: the amended statement evaluated at a failing native
behaviour on the unaligned concrete buffers. -/
theorem process_no_size_validation_witness :
    (∃ m, ({ function := some "Soxr::process",
             error_type := ErrorType.ProcessError "boom" } : Error) =
          { function := some "Soxr::process",
            error_type := ErrorType.ProcessError m } ∧
      (natErrNat.run (Soxr.processArgs cfg2 (some [1, 2, 3])
        ([0, 0, 0, 0] : List Nat))).1 = some m) ∧
    (Soxr.processArgs cfg2 (some [1, 2, 3]) ([0, 0, 0, 0] : List Nat)).ilen = 1 :=
  ⟨(process_no_size_validation natErrNat cfg2 (some [1, 2, 3]) [0, 0, 0, 0]).1
     _ rfl,
   (process_no_size_validation natErrNat cfg2 (some [1, 2, 3]) [0, 0, 0, 0]).2.1
     [1, 2, 3] rfl⟩

/-- C6: on any well-formed handle state, every operation preserves the
invariant that at most one trampoline block is live (the one recorded in
`last_trampoline_data`); the live-block count stays at most one at every
intermediate point of the `set_input` event trace; and re-registration on a
handle that already had block `i` registered leaves exactly one block live —
the freshly allocated one — with the old block freed, not leaked. -/
theorem at_most_one_trampoline_block (s : TrampState) (b : Bool)
    (e : Option String) (h : TrampInv s) :
    TrampInv (Soxr.set_input s b e).1 ∧
    (Soxr.set_input s b e).1.live.length ≤ 1 ∧
    TrampInv (Soxr.dropHandle s).1 ∧
    (∀ n, (liveAfter s.live ((Soxr.set_input s b e).2.1.take n)).length ≤ 1) ∧
    (∀ i, s.last_trampoline_data = some i →
      (Soxr.set_input s true e).1.live = [s.next] ∧
      i ∉ (Soxr.set_input s true e).1.live) := by
  obtain ⟨hl, hn⟩ := h
  have hinv : ∀ (e : Option String) (b : Bool),
      TrampInv (Soxr.set_input s b e).1 := by
    intro e b
    rcases hs : s.last_trampoline_data with _ | i
    · have h0 : s.live = [] := by rw [hl, hs]; rfl
      cases e <;> cases b <;>
        simp [Soxr.set_input, Soxr.drop_last_trampoline, hs, h0, TrampInv]
    · have h0 : s.live = [i] := by rw [hl, hs]; rfl
      cases e <;> cases b <;>
        simp [Soxr.set_input, Soxr.drop_last_trampoline, hs, h0, TrampInv]
  refine ⟨hinv e b, ?_, ?_, ?_, ?_⟩
  · rw [(hinv e b).1]
    cases (Soxr.set_input s b e).1.last_trampoline_data <;> simp
  · rcases hs : s.last_trampoline_data with _ | i
    · have h0 : s.live = [] := by rw [hl, hs]; rfl
      simp [Soxr.dropHandle, Soxr.drop_last_trampoline, hs, h0, TrampInv]
    · have h0 : s.live = [i] := by rw [hl, hs]; rfl
      simp [Soxr.dropHandle, Soxr.drop_last_trampoline, hs, h0, TrampInv]
  · intro n
    rcases hs : s.last_trampoline_data with _ | i
    · have h0 : s.live = [] := by rw [hl, hs]; rfl
      cases e <;> cases b <;> rcases n with _ | _ | _ | n <;>
        simp [Soxr.set_input, Soxr.drop_last_trampoline, hs, h0, liveAfter,
          applyEvent]
    · have h0 : s.live = [i] := by rw [hl, hs]; rfl
      cases e <;> cases b <;> rcases n with _ | _ | _ | n <;>
        simp [Soxr.set_input, Soxr.drop_last_trampoline, hs, h0, liveAfter,
          applyEvent]
  · intro i hi
    have h0 : s.live = [i] := by rw [hl, hi]; rfl
    have hlt : i < s.next := hn i (by rw [h0]; exact List.mem_singleton_self i)
    cases e <;>
      refine ⟨?_, ?_⟩ <;>
        simp [Soxr.set_input, Soxr.drop_last_trampoline, hi, h0] <;> omega

/-- C6 witness: re-registration on the concrete handle state with block 0
registered leaves the invariant intact and exactly the fresh block 1 live,
with block 0 gone. -/
theorem at_most_one_trampoline_block_witness :
    TrampInv (Soxr.set_input regState true none).1 ∧
    (Soxr.set_input regState true none).1.live = [1] ∧
    0 ∉ (Soxr.set_input regState true none).1.live :=
  ⟨(at_most_one_trampoline_block regState true none (by decide)).1,
   ((at_most_one_trampoline_block regState true none (by decide)).2.2.2.2
      0 rfl).1,
   ((at_most_one_trampoline_block regState true none (by decide)).2.2.2.2
      0 rfl).2⟩

/-- C7: on every shim invocation with a block whose tag differs from the
expected marker, the shim panics (the assertion fires) and the supplier is
never invoked — the outcome is the same panic for EVERY supplier function
installed in the block, and the block is left unmodified. -/
theorem input_trampoline_tag_mismatch_panics {S T E : Type}
    (td : TrampolineData S T E)
    (f : S → List T → Nat → S × List T × Except E Nat)
    (q : Nat) (h : td.check ≠ "trampoline") :
    input_trampoline (some { td with input_fn := f }) q =
      (ShimResult.panic trampolineCheckFailMsg,
       some { td with input_fn := f }) := by
  simp [input_trampoline, h]

/-- C7 witness: the tag-mismatch panic evaluated on the concrete mistagged
block. -/
theorem input_trampoline_tag_mismatch_panics_witness :
    input_trampoline
        (some { tdBad with input_fn := fun s b n => (s, b, Except.ok n) }) 3 =
      (ShimResult.panic trampolineCheckFailMsg,
       some { tdBad with input_fn := fun s b n => (s, b, Except.ok n) }) :=
  input_trampoline_tag_mismatch_panics tdBad _ 3 (by decide)

/-- C8: on a handle whose output format is split but whose input format is
interleaved, `get_buf_out_ptr` passes the output buffer through as a single
direct pointer — it consults the INPUT datatype, not the output datatype as
the claim states — whereas the computation the claim describes (decided by
the output datatype) would build the look-aside array of the two channel
segment pointers. -/
theorem get_buf_out_ptr_ignores_output_type :
    Datatype.is_interleaved Datatype.Float64S = false ∧
    Soxr.get_buf_out_ptr mixedCfg ([10, 20, 30, 40] : List Nat) =
      BufPtr.direct [10, 20, 30, 40] ∧
    get_buf_out_ptr_spec mixedCfg ([10, 20, 30, 40] : List Nat) =
      BufPtr.split [[10, 20, 30, 40], [30, 40]] :=
  ⟨rfl, rfl, by decide⟩

/-- C9: calling `set_input` with no state reference allocates no trampoline
block (no allocation event occurs and `last_trampoline_data` stays empty),
yet the shim is still registered with the native engine with a null opaque
state pointer; a shim invocation on that null pointer dereferences it —
undefined behaviour, with no direct-mode guard anywhere on the path. -/
theorem set_input_none_registers_null_state (s : TrampState)
    (e : Option String) (q : Nat) :
    (Soxr.set_input s false e).1.registered = some none ∧
    (Soxr.set_input s false e).1.last_trampoline_data = none ∧
    (Soxr.set_input s false e).2.1.filter Event.isAlloc = [] ∧
    (∀ (A B C : Type),
      input_trampoline (none : Option (TrampolineData A B C)) q =
        (ShimResult.nullDeref, none)) := by
  refine ⟨?_, ?_, ?_, fun A B C => rfl⟩ <;>
    cases e <;> cases hs : s.last_trampoline_data <;>
      simp [Soxr.set_input, Soxr.drop_last_trampoline, hs, Event.isAlloc]

/-- C10: `output` panics with the buffer-too-small assertion whenever the
data buffer holds fewer than `samples * channels` scalars, and performs the
native pull (with the requested per-channel count) whenever the buffer is
large enough. -/
theorem output_asserts_buffer_capacity (c l n : Nat) :
    (l < n * c → Soxr.output c l n = OutputCall.panic outputAssertMsg) ∧
    (n * c ≤ l → Soxr.output c l n = OutputCall.call n) := by
  constructor
  · intro h
    unfold Soxr.output
    rw [if_neg (by omega)]
  · intro h
    unfold Soxr.output
    rw [if_pos (by omega)]

/-- C10 witness: both branches of the assertion evaluated at concrete sizes
for a two-channel handle. -/
theorem output_asserts_buffer_capacity_witness :
    Soxr.output 2 3 2 = OutputCall.panic outputAssertMsg ∧
    Soxr.output 2 8 2 = OutputCall.call 2 :=
  ⟨(output_asserts_buffer_capacity 2 3 2).1 (by decide),
   (output_asserts_buffer_capacity 2 8 2).2 (by decide)⟩

end LibSoxr
